import Mathlib

/-!
Verification of the booking and payment reconciliation core of the
Adventures backend (Flask + SQLAlchemy), shallowly embedded in Lean.

The relational store is modelled as explicit lists of records with exactly
the columns the SQLAlchemy models declare; each HTTP handler body (after
the session-authentication preamble, whose resolved user is passed in
explicitly) is translated into a pure function from request data and store
to the new store and the handler's response.  External collaborators
(the datetime library, the random source for booking references, the
payment provider) are passed in as explicit arguments or modelled by
small deterministic functions, as noted at each definition.
-/

namespace Adventures

/-- A JSON scalar as the handlers receive it from `request.get_json()`:
a Python int, float (modelled as an exact rational), string, or None. -/
inductive PyVal where
  | vInt (n : Int)
  | vFloat (q : Rat)
  | vStr (s : String)
  | vNone
deriving DecidableEq

/-- Python truthiness of a scalar: 0, 0.0, the empty string and None are
falsy, everything else truthy. -/
def pyTruthy : PyVal → Bool
  | .vInt n => n != 0
  | .vFloat q => q != 0
  | .vStr s => s != ""
  | .vNone => false

/-- One or more decimal digits read as a number, else failure. -/
def parseDigits (cs : List Char) : Option Nat :=
  if cs ≠ [] && cs.all Char.isDigit then
    some (cs.foldl (fun n c => n * 10 + (c.toNat - 48)) 0)
  else none

/-- Decimal-string parsing as int() accepts it, modelled over the char
list: an optional sign followed by one or more digits. -/
def parseIntStr (cs : List Char) : Option Int :=
  match cs with
  | [] => none
  | '-' :: rest => (parseDigits rest).map (fun n => -(n : Int))
  | '+' :: rest => (parseDigits rest).map (fun n => (n : Int))
  | _ => (parseDigits cs).map (fun n => (n : Int))

/-- Semantics of Python `int(x)` as used at booking.py line 138: an int is
kept, a float is truncated toward zero, a decimal string is parsed, and
None (TypeError) or an unparseable string (ValueError) fails, which the
handler catches and maps to a 400 response. -/
def pyToInt : PyVal → Option Int
  | .vInt n => some n
  | .vFloat q => some (if q < 0 then Rat.ceil q else Rat.floor q)
  | .vStr s => parseIntStr s.toList
  | .vNone => none

/-- A nonempty date string from the request, abstracted to what the
datetime collaborator yields for it: `invalid` when both accepted formats
raise ValueError, `valid t` when it parses to the UTC timestamp `t`
(booking.py lines 107 to 119 normalise the parse to UTC).  An absent or
empty, hence falsy, string is `Option.none` at the request field. -/
inductive DStr where
  | invalid
  | valid (t : Int)
deriving DecidableEq

/-- users table, app/models/user.py (columns the booking core reads). -/
structure User where
  id : Nat
  username : String
  email : String
  phone_number : Option String
  is_admin : Bool
deriving DecidableEq

/-- adventures table, app/models/adventure.py.  `max_capacity` is a
nullable integer column with default 10; the value 0 stands for both SQL
NULL and 0, which Python truthiness treats identically at the only read
site (booking.py line 146). -/
structure Adventure where
  id : Nat
  title : String
  price : Rat
  max_capacity : Nat
  is_active : Bool
  user_id : Nat
deriving DecidableEq

/-- bookings table, app/models/booking.py (columns the core reads or
writes).  `adventure_date` is a UTC timestamp. -/
structure Booking where
  id : Nat
  user_id : Nat
  adventure_id : Nat
  payment_id : Option Nat
  adventure_date : Int
  number_of_people : Int
  total_amount : Rat
  special_requests : String
  status : String
  booking_reference : String
  customer_name : String
  customer_email : String
  customer_phone : String
deriving DecidableEq

/-- payments table, app/models/payment.py.  The model declares no
booking_id column; its columns are exactly the ones below plus the
timestamps and the `booking` relationship attribute. -/
structure Payment where
  id : Nat
  mpesa_receipt_number : Option String
  phone_number : String
  amount : Rat
  transaction_date : Option Int
  status : String
  checkout_request_id : Option String
  merchant_request_id : Option String
  result_code : Option Int
  result_desc : Option String
  user_id : Nat
  adventure_id : Nat
deriving DecidableEq

/-- Attribute names declared on the Payment model class
(app/models/payment.py): its columns, timestamps and its one relationship.
The SQLAlchemy declarative constructor raises TypeError for any keyword
argument that is not among these. -/
def Payment.attrNames : List String :=
  ["id", "mpesa_receipt_number", "phone_number", "amount",
   "transaction_date", "status", "checkout_request_id",
   "merchant_request_id", "result_code", "result_desc",
   "created_at", "updated_at", "user_id", "adventure_id", "booking"]

/-- The relational store: one list per table. -/
structure DB where
  adventures : List Adventure
  bookings : List Booking
  payments : List Payment
deriving DecidableEq

/-- Autoincrement primary key: one more than the largest id in use. -/
def freshId (ids : List Nat) : Nat :=
  ids.foldr (fun a b => max a b) 0 + 1

/-- string.ascii_uppercase + string.digits, the alphabet of
Booking.generate_booking_reference (app/models/booking.py line 161). -/
def referenceAlphabet : String :=
  "ABCDEFGHIJKLMNOPQRSTUVWXYZ0123456789"

/-- Booking.generate_booking_reference: the fixed prefix BK- followed by 8
characters drawn from the 36-letter alphabet; the 8 draws of
`secrets.choice` are passed in as the function `choice`. -/
def generate_booking_reference (choice : Fin 8 → Fin 36) : String :=
  "BK-" ++ String.mk ((List.finRange 8).map
    (fun i => referenceAlphabet.toList.getD (choice i).val 'A'))

/-- The JSON body accepted by create_booking (routes/booking.py lines
71 to 83); absent keys are `none`. -/
structure BookingReq where
  adventure_id : Option Nat
  booking_date : Option DStr
  adventure_date : Option DStr
  participants : Option PyVal
  number_of_people : Option PyVal
  customer_name : Option String
  customer_email : Option String
  customer_phone : Option String
  special_requests : Option String
deriving DecidableEq

/-- booking.py line 76: `data.get("booking_date") or data.get("adventure_date")`
with a falsy (absent or empty) booking_date falling through. -/
def chooseDate (req : BookingReq) : Option DStr :=
  match req.booking_date with
  | some d => some d
  | none => req.adventure_date

/-- booking.py line 77: `data.get("participants") or data.get("number_of_people", 1)`;
a falsy participants value falls back to number_of_people, defaulting to 1. -/
def effectiveParticipants (req : BookingReq) : PyVal :=
  match req.participants with
  | some v => if pyTruthy v then v else (req.number_of_people.getD (.vInt 1))
  | none => req.number_of_people.getD (.vInt 1)

/-- Responses of create_booking, one constructor per return site of
routes/booking.py lines 59 to 211; `created` carries the persisted row
echoed by the 201 payload. -/
inductive CBResp where
  | missingAdventureId
  | missingDate
  | notFoundAdventure
  | invalidDate
  | pastDate
  | invalidParticipants
  | tooFewParticipants
  | overCapacity (maxCap : Nat)
  | overDefaultLimit
  | serverError (msg : String)
  | created (b : Booking)
deriving DecidableEq

/-- True exactly on the 201 success response. -/
def CBResp.isCreated : CBResp → Bool
  | .created _ => true
  | _ => false

/-- True exactly on the two capacity-rejection responses of
booking.py lines 147 to 156. -/
def CBResp.isCapacityErr : CBResp → Bool
  | .overCapacity _ => true
  | .overDefaultLimit => true
  | _ => false

/-- create_booking, routes/booking.py lines 59 to 211, after the session
user `u` is resolved.  `choice` supplies the 8 random reference draws and
`now` is `datetime.now(timezone.utc)`.  Line 80 evaluates the expression
`user.username or user.name or "Guest"` eagerly as the `data.get` default:
the User model has no attribute `name`, so a falsy username raises
AttributeError, which the handler's except maps to a 500 with no insert. -/
def create_booking (u : User) (req : BookingReq) (choice : Fin 8 → Fin 36)
    (now : Int) (db : DB) : DB × CBResp :=
  if u.username = "" then
    (db, .serverError "AttributeError: User object has no attribute name")
  else
    let customer_name := req.customer_name.getD u.username
    let customer_email := req.customer_email.getD u.email
    let customer_phone := req.customer_phone.getD (u.phone_number.getD "")
    let special_requests := req.special_requests.getD ""
    match req.adventure_id with
    | none => (db, .missingAdventureId)
    | some aid =>
      if aid = 0 then (db, .missingAdventureId)
      else
        match chooseDate req with
        | none => (db, .missingDate)
        | some d =>
          match db.adventures.find? (fun a => a.id == aid && a.is_active) with
          | none => (db, .notFoundAdventure)
          | some adv =>
            match d with
            | .invalid => (db, .invalidDate)
            | .valid t =>
              if t < now then (db, .pastDate)
              else
                match pyToInt (effectiveParticipants req) with
                | none => (db, .invalidParticipants)
                | some n =>
                  if n < 1 then (db, .tooFewParticipants)
                  else
                    let capFail : Option CBResp :=
                      if adv.max_capacity ≠ 0 then
                        if n > (adv.max_capacity : Int) then
                          some (.overCapacity adv.max_capacity)
                        else none
                      else if n > 20 then some .overDefaultLimit else none
                    match capFail with
                    | some r => (db, r)
                    | none =>
                      let b : Booking :=
                        { id := freshId (db.bookings.map (fun x => x.id))
                          user_id := u.id
                          adventure_id := adv.id
                          payment_id := none
                          adventure_date := t
                          number_of_people := n
                          total_amount := adv.price * (n : Rat)
                          special_requests := special_requests
                          status := "pending"
                          booking_reference := generate_booking_reference choice
                          customer_name := customer_name
                          customer_email := customer_email
                          customer_phone := customer_phone }
                      ({ db with bookings := db.bookings ++ [b] }, .created b)

/-- The calendar-date component of a UTC timestamp, the collaborator for
`db.func.date` and `datetime.date()` in the availability query. -/
def dateOf (t : Int) : Int :=
  t / 86400

/-- Adventure.calculate_available_slots, app/models/adventure.py lines
40 to 53: the number of confirmed booking rows for the adventure on the
given calendar date (a row count, `.count()`), subtracted from
max_capacity and clamped at 0. -/
def Adventure.calculate_available_slots (a : Adventure) (t : Int) (db : DB) : Int :=
  let confirmed_count : Int :=
    (db.bookings.filter (fun b =>
      b.adventure_id == a.id && dateOf b.adventure_date == dateOf t &&
        b.status == "confirmed")).length
  max ((a.max_capacity : Int) - confirmed_count) 0

/-- Availability as the specification words it, for refinement comparison
only: max_capacity minus the sum of number_of_people over bookings of the
same adventure on the same calendar date whose status is confirmed. -/
def specAvailable (a : Adventure) (t : Int) (db : DB) : Int :=
  (a.max_capacity : Int) -
    ((db.bookings.filter (fun b =>
      b.adventure_id == a.id && dateOf b.adventure_date == dateOf t &&
        b.status == "confirmed")).map (fun b => b.number_of_people)).sum

/-- The fields of the single-booking 200 payload that the claims read
(routes/booking.py lines 462 to 481). -/
structure BookingView where
  booking_reference : String
  total_amount : Rat
  status : String
  participants : Int
deriving DecidableEq

/-- get_booking_by_id, routes/booking.py lines 435 to 488: the booking of
the session user joined with its adventure, or a 404. -/
def get_booking_by_id (u : User) (bookingId : Nat) (db : DB) : Option BookingView :=
  match db.bookings.find? (fun b => b.id == bookingId && b.user_id == u.id) with
  | none => none
  | some b =>
    match db.adventures.find? (fun a => a.id == b.adventure_id) with
    | none => none
    | some _ =>
      some { booking_reference := b.booking_reference
             total_amount := b.total_amount
             status := b.status
             participants := b.number_of_people }

/-- Responses of initiate_payment, one constructor per return site of
routes/booking.py lines 298 to 373. -/
inductive IPResp where
  | missingFields
  | notFound
  | alreadyStatus (s : String)
  | serverError (msg : String)
  | ok (p : Payment)
deriving DecidableEq

/-- The keyword arguments passed to the Payment constructor at
routes/booking.py lines 339 to 347. -/
def initiatePaymentCtorKwargs : List String :=
  ["user_id", "adventure_id", "booking_id", "phone_number", "amount",
   "checkout_request_id", "status"]

/-- First element satisfying the predicate together with its index. -/
def findWithIdx (p : α → Bool) : List α → Option (Nat × α)
  | [] => none
  | a :: l =>
    if p a then some (0, a)
    else (findWithIdx p l).map (fun ix => (ix.1 + 1, ix.2))

/-- initiate_payment, routes/booking.py lines 298 to 373, after the
session user `u` is resolved; `now` supplies `datetime.now().timestamp()`
for the mock correlation id.  The Payment constructor call at line 339
passes a booking_id keyword, but the Payment model declares no such
attribute, so the SQLAlchemy declarative constructor raises TypeError;
the handler's except rolls back and returns the 500 response, leaving the
store unchanged.  The branch below the constructor-argument check is the
translation of the commit path those lines attempt. -/
def initiate_payment (u : User) (bookingId : Option Nat)
    (phone : Option String) (now : Int) (db : DB) : DB × IPResp :=
  match bookingId, phone with
  | none, _ => (db, .missingFields)
  | some _, none => (db, .missingFields)
  | some bid, some ph =>
    if bid = 0 ∨ ph = "" then (db, .missingFields)
    else
      match findWithIdx (fun b => b.id == bid && b.user_id == u.id) db.bookings with
      | none => (db, .notFound)
      | some (i, b) =>
        if b.status ≠ "pending" then (db, .alreadyStatus b.status)
        else
          if initiatePaymentCtorKwargs.all (fun k => Payment.attrNames.contains k) then
            let p : Payment :=
              { id := freshId (db.payments.map (fun x => x.id))
                mpesa_receipt_number := none
                phone_number := ph
                amount := b.total_amount
                transaction_date := some now
                status := "pending"
                checkout_request_id :=
                  some ("MOCK_" ++ toString b.id ++ "_" ++ toString now)
                merchant_request_id := none
                result_code := none
                result_desc := none
                user_id := u.id
                adventure_id := b.adventure_id }
            ({ db with payments := db.payments ++ [p]
                       bookings := db.bookings.set i { b with status := "payment_pending" } },
             .ok p)
          else
            (db, .serverError "TypeError: booking_id is an invalid keyword argument for Payment")

/-- Responses of cancel_booking, routes/booking.py lines 379 to 429. -/
inductive CancelResp where
  | notFound
  | cannotCancel (s : String)
  | ok
deriving DecidableEq

/-- cancel_booking, routes/booking.py lines 379 to 429, after the session
user `u` is resolved. -/
def cancel_booking (u : User) (bookingId : Nat) (db : DB) : DB × CancelResp :=
  match findWithIdx (fun b => b.id == bookingId && b.user_id == u.id) db.bookings with
  | none => (db, .notFound)
  | some (i, b) =>
    if b.status = "pending" ∨ b.status = "confirmed" then
      ({ db with bookings := db.bookings.set i { b with status := "cancelled" } }, .ok)
    else
      (db, .cannotCancel b.status)

/-- Modelled behavior of the datetime collaborator's strptime with the
format string YmdHMS (mpesa.py line 83): it succeeds exactly on a
14-digit string whose month, day, hour, minute and second fields are in
range, and this model uses the digits read as a number for the resulting
timestamp value. -/
def strptime14 (s : String) : Option Int :=
  let cs := s.toList
  if cs.length = 14 && cs.all Char.isDigit then
    let v : Nat := cs.foldl (fun acc c => acc * 10 + (c.toNat - 48)) 0
    let month := v / 100000000 % 100
    let day := v / 1000000 % 100
    let hour := v / 10000 % 100
    let minute := v / 100 % 100
    let sec := v % 100
    if 1 ≤ month && month ≤ 12 && 1 ≤ day && day ≤ 31 &&
        hour ≤ 23 && minute ≤ 59 && sec ≤ 59 then
      some (v : Int)
    else none
  else none

/-- One entry of CallbackMetadata.Item in the provider's webhook payload,
dispatched on its Name by the loop at mpesa.py lines 76 to 84. -/
inductive MItem where
  | receipt (v : String)
  | amount (v : Rat)
  | transactionDate (v : String)
  | other (name : String)
deriving DecidableEq

/-- The metadata loop of mpesa.py lines 76 to 84: each item overwrites the
matching Payment field in order; a TransactionDate value that strptime
rejects raises ValueError, aborting the whole request with nothing
committed (`none`). -/
def applyMeta (p : Payment) : List MItem → Option Payment
  | [] => some p
  | .receipt r :: rest => applyMeta { p with mpesa_receipt_number := some r } rest
  | .amount q :: rest => applyMeta { p with amount := q } rest
  | .transactionDate v :: rest =>
    match strptime14 v with
    | none => none
    | some t => applyMeta { p with transaction_date := some t } rest
  | .other _ :: rest => applyMeta p rest

/-- Responses of mpesa_callback: the unconditional success
acknowledgement of mpesa.py line 103, or the 500 of line 106. -/
inductive MResp where
  | ack
  | err (msg : String)
deriving DecidableEq

/-- mpesa_callback, routes/mpesa.py lines 58 to 106.  The payment is
matched by checkout_request_id (SQLAlchemy filter_by, where a None
argument matches a NULL column); on ResultCode 0 the metadata is applied,
the payment completed, and the first booking whose payment_id column
equals the payment's id is confirmed; on any other ResultCode the payment
is failed.  A missing payment still acknowledges success.  An uncommitted
session is discarded on the exception path, so the store is unchanged
there. -/
def mpesa_callback (cid : Option String) (rc : Option Int) (rd : Option String)
    (md : List MItem) (db : DB) : DB × MResp :=
  match findWithIdx (fun p => p.checkout_request_id == cid) db.payments with
  | none => (db, .ack)
  | some (i, p) =>
    if rc == some 0 then
      match applyMeta p md with
      | none => (db, .err "ValueError: time data does not match format")
      | some p1 =>
        let p2 : Payment :=
          { p1 with status := "completed", result_code := rc, result_desc := rd }
        let bookings1 :=
          match findWithIdx (fun b => b.payment_id == some p.id) db.bookings with
          | none => db.bookings
          | some (j, b) => db.bookings.set j { b with status := "confirmed" }
        ({ db with payments := db.payments.set i p2, bookings := bookings1 }, .ack)
    else
      let p2 : Payment :=
        { p with status := "failed", result_code := rc, result_desc := rd }
      ({ db with payments := db.payments.set i p2 }, .ack)

/-- Responses of stk_push, routes/mpesa.py lines 11 to 56. -/
inductive StkResp where
  | missingFields (msg : String)
  | ok (paymentId : Nat)
  | serverError (msg : String)
deriving DecidableEq

/-- The provider's reply to initiate_stk_push, an external collaborator. -/
structure StkProviderResp where
  checkoutRequestId : Option String
  merchantRequestId : Option String
deriving DecidableEq

/-- The names in scope in the module routes/mpesa.py: its imports
(lines 1 to 7) and its module-level definitions.  The name `session` is
not among them. -/
def mpesaModuleScopeNames : List String :=
  ["Blueprint", "request", "jsonify", "datetime", "db", "Payment",
   "Booking", "initiate_stk_push", "login_required",
   "validate_required_fields", "mpesa_bp", "stk_push", "mpesa_callback",
   "get_payments", "get_payment"]

/-- stk_push, routes/mpesa.py lines 11 to 56, after the login_required
decorator has admitted the session user `u`.  Its first statement reads
the name `session`, which the module scope does not bind, so the body
raises NameError inside the try block and the handler returns the 500
response with nothing written; the other branch translates the rest of
the body (lines 16 to 52), which that NameError makes unreachable. -/
def stk_push (u : User) (phone : Option String) (amount : Option Rat)
    (adventureId : Option Nat) (provider : StkProviderResp) (db : DB) :
    DB × StkResp :=
  if ("session" ∈ mpesaModuleScopeNames) then
    match phone, amount, adventureId with
    | some ph, some amt, some aid =>
      if ph = "" ∨ amt = 0 ∨ aid = 0 then
        (db, .missingFields "Missing required fields")
      else
        let p : Payment :=
          { id := freshId (db.payments.map (fun x => x.id))
            mpesa_receipt_number := none
            phone_number := ph
            amount := amt
            transaction_date := none
            status := "pending"
            checkout_request_id := provider.checkoutRequestId
            merchant_request_id := provider.merchantRequestId
            result_code := none
            result_desc := none
            user_id := u.id
            adventure_id := aid }
        ({ db with payments := db.payments ++ [p] }, .ok p.id)
    | _, _, _ => (db, .missingFields "Missing required fields")
  else
    (db, .serverError "NameError: name session is not defined")

lemma findWithIdx_get? {p : α → Bool} {l : List α} {i : Nat} {a : α}
    (h : findWithIdx p l = some (i, a)) : l.get? i = some a ∧ p a = true := by
  induction l generalizing i with
  | nil => simp [findWithIdx] at h
  | cons x xs ih =>
    rw [findWithIdx] at h
    by_cases hx : p x = true
    · rw [if_pos hx] at h
      simp only [Option.some.injEq, Prod.mk.injEq] at h
      obtain ⟨h1, h2⟩ := h
      subst h1; subst h2
      simpa using hx
    · rw [if_neg hx] at h
      cases hfx : findWithIdx p xs with
      | none => rw [hfx] at h; simp at h
      | some ix =>
        obtain ⟨j, b⟩ := ix
        rw [hfx] at h
        simp only [Option.map_some', Option.some.injEq, Prod.mk.injEq] at h
        obtain ⟨h1, h2⟩ := h
        subst h1; subst h2
        obtain ⟨hg, hp⟩ := ih hfx
        exact ⟨by simpa using hg, hp⟩

lemma findWithIdx_mem {p : α → Bool} {l : List α} {i : Nat} {a : α}
    (h : findWithIdx p l = some (i, a)) : a ∈ l ∧ p a = true := by
  obtain ⟨hg, hp⟩ := findWithIdx_get? h
  exact ⟨List.get?_mem hg, hp⟩

lemma findWithIdx_set {p : α → Bool} {l : List α} {i : Nat} {a : α} {x : α}
    (h : findWithIdx p l = some (i, a)) (hx : p x = true) :
    findWithIdx p (l.set i x) = some (i, x) := by
  induction l generalizing i with
  | nil => simp [findWithIdx] at h
  | cons y ys ih =>
    rw [findWithIdx] at h
    by_cases hy : p y = true
    · rw [if_pos hy] at h
      simp only [Option.some.injEq, Prod.mk.injEq] at h
      obtain ⟨h1, _⟩ := h
      subst h1
      simp [List.set, findWithIdx, hx]
    · rw [if_neg hy] at h
      cases hfx : findWithIdx p ys with
      | none => rw [hfx] at h; simp at h
      | some ix =>
        obtain ⟨j, b⟩ := ix
        rw [hfx] at h
        simp only [Option.map_some', Option.some.injEq, Prod.mk.injEq] at h
        obtain ⟨h1, h2⟩ := h
        subst h1; subst h2
        simp [List.set, findWithIdx, hy, ih hfx]

lemma freshId_gt {ids : List Nat} {x : Nat} (hx : x ∈ ids) : x < freshId ids := by
  have : x ≤ ids.foldr (fun a b => max a b) 0 := by
    induction ids with
    | nil => simp at hx
    | cons y ys ih =>
      rcases List.mem_cons.mp hx with h | h
      · subst h; simp [List.foldr]
      · simp only [List.foldr]
        exact le_trans (ih h) (le_max_right _ _)
  unfold freshId
  omega

lemma find?_append_left_none {p : α → Bool} {l₁ l₂ : List α}
    (h : ∀ x ∈ l₁, p x = false) :
    (l₁ ++ l₂).find? p = l₂.find? p := by
  induction l₁ with
  | nil => rfl
  | cons y ys ih =>
    have hy := h y (List.mem_cons_self y ys)
    simp only [List.cons_append, List.find?]
    rw [hy]
    exact ih (fun x hx => h x (List.mem_cons_of_mem y hx))

/-- C10: every request by an authenticated user to the stk-push endpoint
returns the 500 error response and inserts no Payment row, because the
handler body reads the unbound name `session` and raises NameError before
the provider call or any database write. -/
theorem c10_stk_push_name_error (u : User) (phone : Option String)
    (amount : Option Rat) (adventureId : Option Nat)
    (provider : StkProviderResp) (db : DB) :
    stk_push u phone amount adventureId provider db =
      (db, StkResp.serverError "NameError: name session is not defined") := by
  rfl

/-- Concrete store for the C3 evaluation: user 1 owns booking 7, which is
in status pending, and no payments exist. -/
def c3User : User :=
  { id := 1, username := "alice", email := "alice@example.com",
    phone_number := none, is_admin := false }

/-- The pending booking owned by user 1 in the C3 evaluation. -/
def c3Booking : Booking :=
  { id := 7, user_id := 1, adventure_id := 2, payment_id := none,
    adventure_date := 1900000000, number_of_people := 2, total_amount := 200,
    special_requests := "", status := "pending",
    booking_reference := "BK-AAAAAAAA", customer_name := "alice",
    customer_email := "alice@example.com", customer_phone := "" }

/-- The C3 store. -/
def c3Db : DB :=
  { adventures := [], bookings := [c3Booking], payments := [] }

/-- C3: evaluation of the code at the failing input.  The claim says a
call on an owned, pending booking persists and returns a pending Payment
carrying the correlation id; the code instead raises TypeError inside the
try block, because the Payment constructor is passed a booking_id keyword
the Payment model does not declare, and the handler returns the 500
response with the store unchanged, so no Payment row is persisted. -/
theorem c3_initiate_payment_type_error :
    initiate_payment c3User (some 7) (some "254700000001") 1700000000 c3Db =
      (c3Db,
       IPResp.serverError
         "TypeError: booking_id is an invalid keyword argument for Payment") := by
  rfl

/-- Concrete store for the C6 evaluation: user 1 owns pending booking 7,
which is linked (by its payment_id column) to pending payment 3 with
correlation id CR1. -/
def c6Db : DB :=
  { adventures := []
    bookings :=
      [{ id := 7, user_id := 1, adventure_id := 2, payment_id := some 3,
         adventure_date := 1900000000, number_of_people := 2,
         total_amount := 200, special_requests := "", status := "pending",
         booking_reference := "BK-BBBBBBBB", customer_name := "alice",
         customer_email := "alice@example.com", customer_phone := "" }]
    payments :=
      [{ id := 3, mpesa_receipt_number := none,
         phone_number := "254700000001", amount := 200,
         transaction_date := none, status := "pending",
         checkout_request_id := some "CR1", merchant_request_id := none,
         result_code := none, result_desc := none, user_id := 1,
         adventure_id := 2 }] }

/-- The user of the C6 evaluation. -/
def c6User : User :=
  { id := 1, username := "alice", email := "alice@example.com",
    phone_number := none, is_admin := false }

/-- C6: evaluation of the code at the failing input.  A callback with
nonzero ResultCode does set the payment to failed, storing ResultCode and
ResultDesc, and does leave the linked booking at pending — but the
claimed subsequent initiate_payment call on that booking does not
succeed: the handler raises TypeError on the Payment constructor's
booking_id keyword and returns the 500 response with the store
unchanged. -/
theorem c6_failed_callback_retry_blocked :
    ((mpesa_callback (some "CR1") (some 1) (some "Request cancelled by user")
        [] c6Db).1.payments.map (fun p => p.status) = ["failed"]) ∧
    ((mpesa_callback (some "CR1") (some 1) (some "Request cancelled by user")
        [] c6Db).1.bookings.map (fun b => b.status) = ["pending"]) ∧
    (initiate_payment c6User (some 7) (some "254700000001") 1700000001
        (mpesa_callback (some "CR1") (some 1) (some "Request cancelled by user")
          [] c6Db).1 =
      ((mpesa_callback (some "CR1") (some 1) (some "Request cancelled by user")
          [] c6Db).1,
       IPResp.serverError
         "TypeError: booking_id is an invalid keyword argument for Payment")) := by
  refine ⟨rfl, rfl, rfl⟩

/-- C8: cancel_booking on a booking of the requesting user succeeds, and
sets the status to cancelled, exactly when the current status is pending
or confirmed; on a completed or already-cancelled booking it returns the
state-transition rejection and leaves the store unchanged. -/
theorem c8_cancel_transitions (u : User) (bookingId : Nat) (db : DB)
    (i : Nat) (b : Booking)
    (h : findWithIdx (fun x => x.id == bookingId && x.user_id == u.id)
      db.bookings = some (i, b)) :
    (((cancel_booking u bookingId db).2 = CancelResp.ok) ↔
      (b.status = "pending" ∨ b.status = "confirmed")) ∧
    ((b.status = "pending" ∨ b.status = "confirmed") →
      (cancel_booking u bookingId db).1.bookings =
        db.bookings.set i { b with status := "cancelled" }) ∧
    ((b.status = "completed" ∨ b.status = "cancelled") →
      cancel_booking u bookingId db = (db, CancelResp.cannotCancel b.status)) := by
  unfold cancel_booking
  rw [h]
  by_cases hs : b.status = "pending" ∨ b.status = "confirmed"
  · refine ⟨by simp [hs], fun _ => by simp [hs], fun hc => ?_⟩
    rcases hs with hs | hs <;> rcases hc with hc | hc <;> rw [hs] at hc <;> simp at hc
  · refine ⟨by simp [hs], fun hs2 => absurd hs2 hs, fun _ => by simp [hs]⟩

/-- The user of the C8 witness. -/
def c8User : User :=
  { id := 4, username := "bob", email := "bob@example.com",
    phone_number := none, is_admin := false }

/-- The completed booking of the C8 witness. -/
def c8Booking : Booking :=
  { id := 9, user_id := 4, adventure_id := 2, payment_id := none,
    adventure_date := 1900000000, number_of_people := 1, total_amount := 50,
    special_requests := "", status := "completed",
    booking_reference := "BK-CCCCCCCC", customer_name := "bob",
    customer_email := "bob@example.com", customer_phone := "" }

/-- The store of the C8 witness. -/
def c8Db : DB :=
  { adventures := [], bookings := [c8Booking], payments := [] }

/-- Witness for C8: on a concrete completed booking the call is rejected
with the state-transition error and the store is unchanged. -/
theorem c8_cancel_transitions_witness :
    cancel_booking c8User 9 c8Db = (c8Db, CancelResp.cannotCancel "completed") := by
  have h := c8_cancel_transitions c8User 9 c8Db 0 c8Booking (by rfl)
  have := h.2.2 (Or.inl rfl)
  simpa [c8Booking] using this

def mdReceipt : List MItem → Option String
  | [] => none
  | .receipt r :: rest => some ((mdReceipt rest).getD r)
  | _ :: rest => mdReceipt rest

def mdAmount : List MItem → Option Rat
  | [] => none
  | .amount q :: rest => some ((mdAmount rest).getD q)
  | _ :: rest => mdAmount rest

def mdTxParsed : List MItem → Option Int
  | [] => none
  | .transactionDate v :: rest =>
    match mdTxParsed rest with
    | some t => some t
    | none => strptime14 v
  | _ :: rest => mdTxParsed rest

def mdOk : List MItem → Bool
  | [] => true
  | .transactionDate v :: rest => (strptime14 v).isSome && mdOk rest
  | _ :: rest => mdOk rest

/-- The net effect of the metadata loop on a payment: each field takes the
last value the metadata assigns to it, or keeps its previous value. -/
def ovr (p : Payment) (md : List MItem) : Payment :=
  { p with
    mpesa_receipt_number :=
      match mdReceipt md with
      | some r => some r
      | none => p.mpesa_receipt_number
    amount :=
      match mdAmount md with
      | some q => q
      | none => p.amount
    transaction_date :=
      match mdTxParsed md with
      | some t => some t
      | none => p.transaction_date }

lemma ovr_nil (p : Payment) : ovr p [] = p := by
  simp [ovr, mdReceipt, mdAmount, mdTxParsed]

lemma ovr_receipt_cons (p : Payment) (r : String) (rest : List MItem) :
    ovr p (.receipt r :: rest) = ovr { p with mpesa_receipt_number := some r } rest := by
  cases h : mdReceipt rest <;> simp [ovr, mdReceipt, mdAmount, mdTxParsed, h]

lemma ovr_amount_cons (p : Payment) (q : Rat) (rest : List MItem) :
    ovr p (.amount q :: rest) = ovr { p with amount := q } rest := by
  cases h : mdAmount rest <;> simp [ovr, mdReceipt, mdAmount, mdTxParsed, h]

lemma ovr_tx_cons (p : Payment) (v : String) (t : Int) (rest : List MItem)
    (hv : strptime14 v = some t) :
    ovr p (.transactionDate v :: rest) = ovr { p with transaction_date := some t } rest := by
  cases h : mdTxParsed rest <;> simp [ovr, mdReceipt, mdAmount, mdTxParsed, h, hv]

lemma ovr_other_cons (p : Payment) (s : String) (rest : List MItem) :
    ovr p (.other s :: rest) = ovr p rest := by
  simp [ovr, mdReceipt, mdAmount, mdTxParsed]

/-- The metadata loop in normal form: it succeeds exactly when every
TransactionDate item parses, and then each field holds the last value
assigned to it. -/
lemma applyMeta_nf (md : List MItem) (p : Payment) :
    applyMeta p md = if mdOk md then some (ovr p md) else none := by
  induction md generalizing p with
  | nil => simp [applyMeta, mdOk, ovr_nil]
  | cons it rest ih =>
    cases it with
    | receipt r =>
      rw [applyMeta, ih, ovr_receipt_cons]
      rfl
    | amount q =>
      rw [applyMeta, ih, ovr_amount_cons]
      rfl
    | transactionDate v =>
      rw [applyMeta]
      cases hv : strptime14 v with
      | none => simp [mdOk, hv]
      | some t =>
        change applyMeta { p with transaction_date := some t } rest = _
        rw [ih, ovr_tx_cons p v t rest hv]
        simp [mdOk, hv]
    | other s =>
      rw [applyMeta, ih, ovr_other_cons]
      rfl

lemma ovr_override (p : Payment) (md : List MItem) (s : String)
    (c : Option Int) (d : Option String) :
    ovr { ovr p md with status := s, result_code := c, result_desc := d } md =
      { ovr p md with status := s, result_code := c, result_desc := d } := by
  cases h1 : mdReceipt md <;> cases h2 : mdAmount md <;>
    cases h3 : mdTxParsed md <;> simp [ovr, h1, h2, h3]

lemma ovr_checkout (p : Payment) (md : List MItem) :
    (ovr p md).checkout_request_id = p.checkout_request_id := by
  simp [ovr]

lemma ovr_payment_id_field (p : Payment) (md : List MItem) :
    (ovr p md).id = p.id := by
  simp [ovr]

lemma callback_fixpoint (cid : Option String) (rc : Option Int)
    (rd : Option String) (md : List MItem) (db1 : DB) (i : Nat) (P2 : Payment)
    (hf2 : findWithIdx (fun q => q.checkout_request_id == cid) db1.payments = some (i, P2))
    (hrc : (rc == some 0) = true)
    (hnf2 : applyMeta P2 md = some P2)
    (hov : ({ P2 with status := "completed", result_code := rc, result_desc := rd } : Payment) = P2)
    (hset : db1.payments.set i P2 = db1.payments)
    (hbset : ∀ j b, findWithIdx (fun x => x.payment_id == some P2.id) db1.bookings = some (j, b) →
      db1.bookings.set j ({ b with status := "confirmed" }) = db1.bookings) :
    mpesa_callback cid rc rd md db1 = (db1, MResp.ack) := by
  cases hbk : findWithIdx (fun x => x.payment_id == some P2.id) db1.bookings with
  | none => simp [mpesa_callback, hf2, hrc, hnf2, hov, hbk, hset]
  | some jb =>
    obtain ⟨j, b⟩ := jb
    simp [mpesa_callback, hf2, hrc, hnf2, hov, hbk, hset, hbset j b hbk]

lemma callback_fixpoint_failed (cid : Option String) (rc : Option Int)
    (rd : Option String) (md : List MItem) (db1 : DB) (i : Nat) (P2 : Payment)
    (hf2 : findWithIdx (fun q => q.checkout_request_id == cid) db1.payments = some (i, P2))
    (hrc : (rc == some 0) = false)
    (hov : ({ P2 with status := "failed", result_code := rc, result_desc := rd } : Payment) = P2)
    (hset : db1.payments.set i P2 = db1.payments) :
    mpesa_callback cid rc rd md db1 = (db1, MResp.ack) := by
  simp [mpesa_callback, hf2, hrc, hov, hset]

/-- C5: mpesa_callback is idempotent — applying it a second time with
identical arguments leaves the store exactly as after the first
application and returns the same response, so a duplicate callback for a
payment the first delivery already completed or failed is a no-op that
still acknowledges success. -/
theorem c5_callback_idempotent (cid : Option String) (rc : Option Int)
    (rd : Option String) (md : List MItem) (db : DB) :
    mpesa_callback cid rc rd md (mpesa_callback cid rc rd md db).1 =
      mpesa_callback cid rc rd md db := by
  cases hf : findWithIdx (fun p => p.checkout_request_id == cid) db.payments with
  | none =>
    simp [mpesa_callback, hf]
  | some ip =>
    obtain ⟨i, p⟩ := ip
    have hpred : (p.checkout_request_id == cid) = true := (findWithIdx_mem hf).2
    by_cases hrc : (rc == some 0) = true
    · have hnf := applyMeta_nf md p
      cases hok : mdOk md with
      | false =>
        rw [hok, if_neg (by simp)] at hnf
        have h1 : mpesa_callback cid rc rd md db = (db, .err "ValueError: time data does not match format") := by
          simp [mpesa_callback, hf, hrc, hnf]
        rw [h1]
        exact h1
      | true =>
        rw [hok, if_pos rfl] at hnf
        have hpred2 : (({ ovr p md with status := "completed", result_code := rc, result_desc := rd } : Payment).checkout_request_id == cid) = true := by
          simpa [ovr_checkout] using hpred
        have hid2 : ({ ovr p md with status := "completed", result_code := rc, result_desc := rd } : Payment).id = p.id := by
          simpa using ovr_payment_id_field p md
        have hpfun : (fun x : Booking => x.payment_id == some (({ ovr p md with status := "completed", result_code := rc, result_desc := rd } : Payment)).id) = (fun x : Booking => x.payment_id == some p.id) := by
          funext x
          rw [hid2]
        have hnf2 := applyMeta_nf md ({ ovr p md with status := "completed", result_code := rc, result_desc := rd } : Payment)
        rw [hok, if_pos rfl, ovr_override] at hnf2
        cases hb : findWithIdx (fun b => b.payment_id == some p.id) db.bookings with
        | none =>
          have h1 : mpesa_callback cid rc rd md db = ({ db with payments := db.payments.set i { ovr p md with status := "completed", result_code := rc, result_desc := rd } }, MResp.ack) := by
            simp [mpesa_callback, hf, hrc, hnf, hb]
          rw [h1]
          refine callback_fixpoint cid rc rd md _ i _ (findWithIdx_set hf hpred2) hrc hnf2 rfl (List.set_set _ _ _ _) ?_
          intro j b hfind
          rw [hpfun] at hfind
          simp only at hfind
          rw [hb] at hfind
          cases hfind
        | some jb =>
          obtain ⟨j, b⟩ := jb
          have hbpred : (b.payment_id == some p.id) = true := (findWithIdx_mem hb).2
          have hb2 := findWithIdx_set hb (show (({ b with status := "confirmed" } : Booking).payment_id == some p.id) = true by simpa using hbpred)
          have h1 : mpesa_callback cid rc rd md db = ({ db with payments := db.payments.set i { ovr p md with status := "completed", result_code := rc, result_desc := rd }, bookings := db.bookings.set j { b with status := "confirmed" } }, MResp.ack) := by
            simp [mpesa_callback, hf, hrc, hnf, hb]
          rw [h1]
          refine callback_fixpoint cid rc rd md _ i _ (findWithIdx_set hf hpred2) hrc hnf2 rfl (List.set_set _ _ _ _) ?_
          intro j2 b2 hfind
          rw [hpfun] at hfind
          simp only at hfind
          rw [hb2] at hfind
          injection hfind with hfind
          injection hfind with hj hbv
          subst hj
          subst hbv
          rw [List.set_set]
    · have hrcf : (rc == some 0) = false := by
        simpa using hrc
      have hpred2 : (({ p with status := "failed", result_code := rc, result_desc := rd } : Payment).checkout_request_id == cid) = true := by
        simpa using hpred
      have h1 : mpesa_callback cid rc rd md db = ({ db with payments := db.payments.set i { p with status := "failed", result_code := rc, result_desc := rd } }, MResp.ack) := by
        simp [mpesa_callback, hf, hrcf]
      rw [h1]
      exact callback_fixpoint_failed cid rc rd md _ i _ (findWithIdx_set hf hpred2) hrcf rfl (List.set_set _ _ _ _)

/-- The status values of the Booking model's documented enum
(app/models/booking.py line 74). -/
def validStatus (s : String) : Prop :=
  s = "pending" ∨ s = "confirmed" ∨ s = "cancelled" ∨ s = "completed"

/-- The allowed lifecycle transitions, staying put included: pending to
confirmed or cancelled, confirmed to completed or cancelled. -/
def allowedTransition (s t : String) : Prop :=
  s = t ∨ (s = "pending" ∧ (t = "confirmed" ∨ t = "cancelled")) ∨
    (s = "confirmed" ∧ (t = "completed" ∨ t = "cancelled"))

/-- The booking-table invariant the four core operations maintain: every
row carries a documented status and a NULL payment_id column (no code
path ever assigns that column). -/
def BookingInv (db : DB) : Prop :=
  ∀ b ∈ db.bookings, validStatus b.status ∧ b.payment_id = none

/-- How one operation may change the booking table: pointwise, each row
keeps its payment_id and moves its status only along an allowed
transition, or a fresh pending row is appended. -/
def bookingsEvolve (old new : List Booking) : Prop :=
  List.Forall₂
    (fun b b2 => b.payment_id = b2.payment_id ∧ allowedTransition b.status b2.status)
    old new ∨
  ∃ nb, new = old ++ [nb] ∧ nb.status = "pending" ∧ nb.payment_id = none

lemma bookingsEvolve_refl (l : List Booking) : bookingsEvolve l l :=
  Or.inl (List.forall₂_same.2 (fun _ _ => ⟨rfl, Or.inl rfl⟩))

lemma forall₂_set_of_rel {r : Booking → Booking → Prop} (hrefl : ∀ a, r a a)
    (l : List Booking) (i : Nat) (x : Booking)
    (hx : ∀ b, l.get? i = some b → r b x) :
    List.Forall₂ r l (l.set i x) := by
  induction l generalizing i with
  | nil => simp [List.set]
  | cons y ys ih =>
    cases i with
    | zero =>
      have hr := hx y rfl
      simpa [List.set] using
        List.Forall₂.cons hr (List.forall₂_same.2 (fun a _ => hrefl a))
    | succ n =>
      simpa [List.set] using
        List.Forall₂.cons (hrefl y) (ih n (fun b hb => hx b (by simpa using hb)))

lemma inv_of_forall₂ {old new : List Booking}
    (hf : List.Forall₂
      (fun b b2 => b.payment_id = b2.payment_id ∧ allowedTransition b.status b2.status)
      old new)
    (hinv : ∀ b ∈ old, validStatus b.status ∧ b.payment_id = none) :
    ∀ b ∈ new, validStatus b.status ∧ b.payment_id = none := by
  induction hf with
  | nil => intro b hb; simp at hb
  | @cons a b as bs hr htail ih =>
    intro x hx
    rcases List.mem_cons.mp hx with hx1 | hx2
    · subst hx1
      have h0 := hinv a (List.mem_cons_self a as)
      refine ⟨?_, by rw [← hr.1]; exact h0.2⟩
      unfold validStatus
      rcases hr.2 with heq | ⟨_, ht | ht⟩ | ⟨_, ht | ht⟩
      · rw [← heq]; exact h0.1
      · exact Or.inr (Or.inl ht)
      · exact Or.inr (Or.inr (Or.inl ht))
      · exact Or.inr (Or.inr (Or.inr ht))
      · exact Or.inr (Or.inr (Or.inl ht))
    · exact ih (fun b hb => hinv b (List.mem_cons_of_mem a hb)) x hx2

lemma inv_of_evolve {old new : List Booking}
    (hinv : ∀ b ∈ old, validStatus b.status ∧ b.payment_id = none)
    (hev : bookingsEvolve old new) :
    ∀ b ∈ new, validStatus b.status ∧ b.payment_id = none := by
  rcases hev with hf | ⟨nb, hn, hs, hp⟩
  · exact inv_of_forall₂ hf hinv
  · subst hn
    intro b hb
    rcases List.mem_append.mp hb with hb | hb
    · exact hinv b hb
    · have hb1 := List.mem_singleton.mp hb
      subst hb1
      exact ⟨Or.inl hs, hp⟩

lemma create_booking_evolve (u : User) (req : BookingReq) (choice : Fin 8 → Fin 36)
    (now : Int) (db : DB) :
    bookingsEvolve db.bookings (create_booking u req choice now db).1.bookings := by
  unfold create_booking
  repeat' split
  all_goals
    first
      | exact bookingsEvolve_refl db.bookings
      | exact Or.inr ⟨_, rfl, rfl, rfl⟩

/-- The constructor-argument check of initiate_payment fails: the kwarg
booking_id is not an attribute of the Payment model. -/
lemma kwargs_check_false :
    (initiatePaymentCtorKwargs.all (fun k => Payment.attrNames.contains k)) = false := by
  decide

/-- initiate_payment never changes the store: every control path either
rejects the request or raises TypeError at the Payment constructor. -/
lemma initiate_payment_state (u : User) (bid : Option Nat) (phone : Option String)
    (now : Int) (db : DB) :
    (initiate_payment u bid phone now db).1 = db := by
  unfold initiate_payment
  repeat' split
  all_goals
    first
      | rfl
      | (rename_i hkw; exact absurd hkw (by decide))

lemma mpesa_callback_bookings (cid : Option String) (rc : Option Int)
    (rd : Option String) (md : List MItem) (db : DB)
    (hinv : ∀ b ∈ db.bookings, b.payment_id = none) :
    (mpesa_callback cid rc rd md db).1.bookings = db.bookings := by
  cases hf : findWithIdx (fun p => p.checkout_request_id == cid) db.payments with
  | none => simp [mpesa_callback, hf]
  | some ip =>
    obtain ⟨i, p⟩ := ip
    by_cases hrc : (rc == some 0) = true
    · cases hnf : applyMeta p md with
      | none => simp [mpesa_callback, hf, hrc, hnf]
      | some p1 =>
        cases hb : findWithIdx (fun b => b.payment_id == some p.id) db.bookings with
        | none => simp [mpesa_callback, hf, hrc, hnf, hb]
        | some jb =>
          exfalso
          obtain ⟨j, b⟩ := jb
          have hm := findWithIdx_mem hb
          have hbn := hinv b hm.1
          rw [hbn] at hm
          simp at hm
    · simp [mpesa_callback, hf, hrc]

lemma cancel_booking_evolve (u : User) (bookingId : Nat) (db : DB) :
    bookingsEvolve db.bookings (cancel_booking u bookingId db).1.bookings := by
  unfold cancel_booking
  cases hfind : findWithIdx (fun b => b.id == bookingId && b.user_id == u.id) db.bookings with
  | none => exact bookingsEvolve_refl db.bookings
  | some ib =>
    obtain ⟨i, b⟩ := ib
    by_cases hs : b.status = "pending" ∨ b.status = "confirmed"
    · simp only [hs, if_true, if_pos]
      refine Or.inl (forall₂_set_of_rel (fun _ => ⟨rfl, Or.inl rfl⟩) _ i _ ?_)
      intro x hx
      have hgb := (findWithIdx_get? hfind).1
      rw [hgb] at hx
      injection hx with hx
      subst hx
      refine ⟨rfl, ?_⟩
      rcases hs with hs | hs
      · exact Or.inr (Or.inl ⟨hs, Or.inr rfl⟩)
      · exact Or.inr (Or.inr ⟨hs, Or.inr rfl⟩)
    · simp only [hs, if_false, if_neg]
      exact bookingsEvolve_refl db.bookings

/-- C4: from any store satisfying the booking invariant — every booking
status is one of pending, confirmed, cancelled, completed (and the
payment_id column is NULL, as no code path assigns it) — each of
create_booking, initiate_payment, mpesa_callback and cancel_booking
preserves the invariant and changes each booking's status only along the
allowed transitions (pending to confirmed or cancelled, confirmed to
completed or cancelled, terminal states fixed), at most appending one
fresh pending booking. -/
theorem c4_status_invariant (db : DB) (hinv : BookingInv db)
    (u : User) (req : BookingReq) (choice : Fin 8 → Fin 36) (now : Int)
    (u2 : User) (bid : Option Nat) (phone : Option String) (now2 : Int)
    (cid : Option String) (rc : Option Int) (rd : Option String) (md : List MItem)
    (u3 : User) (bookingId : Nat) :
    (bookingsEvolve db.bookings (create_booking u req choice now db).1.bookings ∧
      BookingInv (create_booking u req choice now db).1) ∧
    (bookingsEvolve db.bookings (initiate_payment u2 bid phone now2 db).1.bookings ∧
      BookingInv (initiate_payment u2 bid phone now2 db).1) ∧
    (bookingsEvolve db.bookings (mpesa_callback cid rc rd md db).1.bookings ∧
      BookingInv (mpesa_callback cid rc rd md db).1) ∧
    (bookingsEvolve db.bookings (cancel_booking u3 bookingId db).1.bookings ∧
      BookingInv (cancel_booking u3 bookingId db).1) := by
  have hcb := mpesa_callback_bookings cid rc rd md db (fun b hb => (hinv b hb).2)
  refine ⟨⟨create_booking_evolve u req choice now db, ?_⟩,
          ⟨?_, ?_⟩, ⟨?_, ?_⟩, ⟨cancel_booking_evolve u3 bookingId db, ?_⟩⟩
  · exact inv_of_evolve hinv (create_booking_evolve u req choice now db)
  · rw [initiate_payment_state u2 bid phone now2 db]
    exact bookingsEvolve_refl db.bookings
  · intro b hb
    rw [initiate_payment_state u2 bid phone now2 db] at hb
    exact hinv b hb
  · rw [hcb]
    exact bookingsEvolve_refl db.bookings
  · intro b hb
    rw [hcb] at hb
    exact hinv b hb
  · exact inv_of_evolve hinv (cancel_booking_evolve u3 bookingId db)

/-- Store for the C4 witness: one adventure, no bookings, no payments. -/
def c4Db : DB :=
  { adventures := [{ id := 2, title := "Hike", price := 100, max_capacity := 5,
                     is_active := true, user_id := 1 }]
    bookings := []
    payments := [] }

/-- The user of the C4 witness. -/
def c4User : User :=
  { id := 1, username := "alice", email := "alice@example.com",
    phone_number := none, is_admin := false }

/-- The request of the C4 witness. -/
def c4Req : BookingReq :=
  { adventure_id := some 2, booking_date := some (.valid 1900000000),
    adventure_date := none, participants := some (.vInt 2),
    number_of_people := none, customer_name := none, customer_email := none,
    customer_phone := none, special_requests := none }

/-- Witness for C4: the invariant holds of a concrete store and is still
in force after cancel_booking runs on it. -/
theorem c4_status_invariant_witness :
    BookingInv c4Db ∧ BookingInv (cancel_booking c4User 1 c4Db).1 := by
  have hinv : BookingInv c4Db := by
    intro b hb
    simp [c4Db] at hb
  exact ⟨hinv, (c4_status_invariant c4Db hinv c4User c4Req (fun _ => 0) 0
    c4User none none 0 none none none [] c4User 1).2.2.2.2⟩

/-- C2: a callback whose correlation id matches an existing Payment and
whose ResultCode is 0 acknowledges success, sets that Payment to
completed storing the receipt number, confirmed amount and parsed
provider transaction timestamp from the metadata together with the
result fields, and sets the status of the booking linked to the Payment
(the first row whose payment_id column equals the Payment's id) to
confirmed. -/
theorem c2_success_callback_confirms (cid : String) (rd : Option String)
    (r : String) (q : Rat) (v : String) (t : Int) (db : DB)
    (i : Nat) (p : Payment) (hv : strptime14 v = some t)
    (hf : findWithIdx (fun x => x.checkout_request_id == some cid) db.payments =
      some (i, p)) :
    (mpesa_callback (some cid) (some 0) rd
        [MItem.receipt r, MItem.amount q, MItem.transactionDate v] db).2 = MResp.ack ∧
    (mpesa_callback (some cid) (some 0) rd
        [MItem.receipt r, MItem.amount q, MItem.transactionDate v] db).1.payments =
      db.payments.set i { p with mpesa_receipt_number := some r, amount := q, transaction_date := some t, status := "completed", result_code := some 0, result_desc := rd } ∧
    (∀ j b, findWithIdx (fun x => x.payment_id == some p.id) db.bookings = some (j, b) →
      (mpesa_callback (some cid) (some 0) rd
          [MItem.receipt r, MItem.amount q, MItem.transactionDate v] db).1.bookings =
        db.bookings.set j { b with status := "confirmed" }) := by
  have hmeta : applyMeta p [MItem.receipt r, MItem.amount q, MItem.transactionDate v] =
      some { p with mpesa_receipt_number := some r, amount := q, transaction_date := some t } := by
    simp [applyMeta, hv]
  refine ⟨?_, ?_, ?_⟩
  · cases hb : findWithIdx (fun x => x.payment_id == some p.id) db.bookings with
    | none => simp [mpesa_callback, hf, hmeta, hb]
    | some jb =>
      obtain ⟨j, b⟩ := jb
      simp [mpesa_callback, hf, hmeta, hb]
  · cases hb : findWithIdx (fun x => x.payment_id == some p.id) db.bookings with
    | none => simp [mpesa_callback, hf, hmeta, hb]
    | some jb =>
      obtain ⟨j, b⟩ := jb
      simp [mpesa_callback, hf, hmeta, hb]
  · intro j b hfind
    simp [mpesa_callback, hf, hmeta, hfind]

/-- The linked booking of the C2 witness. -/
def c2Booking : Booking :=
  { id := 7, user_id := 1, adventure_id := 2, payment_id := some 3,
    adventure_date := 1900000000, number_of_people := 2, total_amount := 200,
    special_requests := "", status := "pending",
    booking_reference := "BK-DDDDDDDD", customer_name := "alice",
    customer_email := "alice@example.com", customer_phone := "" }

/-- The matched payment of the C2 witness. -/
def c2Payment : Payment :=
  { id := 3, mpesa_receipt_number := none, phone_number := "254700000001",
    amount := 200, transaction_date := none, status := "pending",
    checkout_request_id := some "CRX", merchant_request_id := none,
    result_code := none, result_desc := none, user_id := 1, adventure_id := 2 }

/-- The store of the C2 witness. -/
def c2Db : DB :=
  { adventures := [], bookings := [c2Booking], payments := [c2Payment] }

/-- Witness for C2: on a concrete store a successful callback confirms
the linked booking. -/
theorem c2_success_callback_confirms_witness :
    strptime14 "20250601123045" = some 20250601123045 ∧
    (mpesa_callback (some "CRX") (some 0) (some "ok")
        [MItem.receipt "R1", MItem.amount 200, MItem.transactionDate "20250601123045"]
        c2Db).1.bookings =
      c2Db.bookings.set 0 { c2Booking with status := "confirmed" } := by
  refine ⟨by decide, ?_⟩
  exact (c2_success_callback_confirms "CRX" (some "ok") "R1" 200 "20250601123045"
    20250601123045 c2Db 0 c2Payment (by decide) rfl).2.2 0 c2Booking rfl

/-- The booking-reference pattern the specification describes: the fixed
prefix BK- followed by 8 alphanumeric characters. -/
def refPattern (s : String) : Prop :=
  ∃ suffix : String, s = "BK-" ++ suffix ∧ suffix.length = 8 ∧
    ∀ c ∈ suffix.toList, c.isAlphanum = true

lemma getD_mem_or (l : List Char) (n : Nat) (d : Char) :
    l.getD n d ∈ l ∨ l.getD n d = d := by
  induction l generalizing n with
  | nil => right; rfl
  | cons x xs ih =>
    cases n with
    | zero => left; simp [List.getD]
    | succ m =>
      rcases ih m with hm | he
      · left; simp [List.getD] at hm ⊢; right; simpa using hm
      · right; simpa [List.getD] using he

lemma generate_ref_pattern (choice : Fin 8 → Fin 36) :
    refPattern (generate_booking_reference choice) := by
  refine ⟨String.mk ((List.finRange 8).map
    (fun i => referenceAlphabet.toList.getD (choice i).val 'A')), rfl, ?_, ?_⟩
  · show ((List.finRange 8).map
      (fun i => referenceAlphabet.toList.getD (choice i).val 'A')).length = 8
    simp
  · intro c hc
    have halpha : ∀ c ∈ referenceAlphabet.data, c.isAlphanum = true := by decide
    simp only [String.toList, String.mk] at hc
    simp only [List.mem_map] at hc
    obtain ⟨i, _, rfl⟩ := hc
    rcases getD_mem_or referenceAlphabet.data ((choice i) : Nat) 'A' with hm | he
    · exact halpha _ hm
    · rw [he]; decide

/-- Inversion of a successful create_booking run: the validations all
passed and the returned row, appended to the store, is exactly the one
built at routes/booking.py lines 164 to 182. -/
lemma create_booking_success (u : User) (req : BookingReq) (choice : Fin 8 → Fin 36)
    (now : Int) (db : DB) (b : Booking)
    (h : (create_booking u req choice now db).2 = CBResp.created b) :
    ∃ aid adv t n,
      u.username ≠ "" ∧
      req.adventure_id = some aid ∧ aid ≠ 0 ∧
      chooseDate req = some (DStr.valid t) ∧ ¬ t < now ∧
      db.adventures.find? (fun a => a.id == aid && a.is_active) = some adv ∧
      pyToInt (effectiveParticipants req) = some n ∧ ¬ n < 1 ∧
      b = { id := freshId (db.bookings.map (fun x => x.id)), user_id := u.id, adventure_id := adv.id, payment_id := none, adventure_date := t, number_of_people := n, total_amount := adv.price * (n : Rat), special_requests := req.special_requests.getD "", status := "pending", booking_reference := generate_booking_reference choice, customer_name := req.customer_name.getD u.username, customer_email := req.customer_email.getD u.email, customer_phone := req.customer_phone.getD (u.phone_number.getD "") } ∧
      create_booking u req choice now db =
        ({ db with bookings := db.bookings ++ [b] }, CBResp.created b) := by
  by_cases hu : u.username = ""
  · exfalso; rw [create_booking, if_pos hu] at h; simp at h
  cases haid : req.adventure_id with
  | none => exfalso; rw [create_booking, if_neg hu, haid] at h; simp at h
  | some aid =>
  by_cases ha0 : aid = 0
  · exfalso; rw [create_booking, if_neg hu, haid] at h; simp [ha0] at h
  cases hcd : chooseDate req with
  | none =>
    exfalso; rw [create_booking, if_neg hu, haid] at h; simp [ha0, hcd] at h
  | some d =>
  cases hfa : db.adventures.find? (fun a => a.id == aid && a.is_active) with
  | none =>
    exfalso; rw [create_booking, if_neg hu, haid] at h; simp [ha0, hcd, hfa] at h
  | some adv =>
  cases d with
  | invalid =>
    exfalso; rw [create_booking, if_neg hu, haid] at h; simp [ha0, hcd, hfa] at h
  | valid t =>
  by_cases ht : t < now
  · exfalso; rw [create_booking, if_neg hu, haid] at h
    simp [ha0, hcd, hfa, ht] at h
  cases hpi : pyToInt (effectiveParticipants req) with
  | none =>
    exfalso; rw [create_booking, if_neg hu, haid] at h
    simp [ha0, hcd, hfa, ht, hpi] at h
  | some n =>
  by_cases hn : n < 1
  · exfalso; rw [create_booking, if_neg hu, haid] at h
    simp [ha0, hcd, hfa, ht, hpi, hn] at h
  have hcap : ∀ r, (if adv.max_capacity ≠ 0 then
      (if n > (adv.max_capacity : Int) then some (CBResp.overCapacity adv.max_capacity) else none)
      else if n > 20 then some CBResp.overDefaultLimit else none) = some r → False := by
    intro r hr
    rw [create_booking, if_neg hu, haid] at h
    simp [ha0, hcd, hfa, ht, hpi, hn, hr] at h
    subst h
    by_cases hc1 : adv.max_capacity ≠ 0
    · rw [if_pos hc1] at hr
      by_cases hc2 : n > (adv.max_capacity : Int)
      · rw [if_pos hc2] at hr; simp at hr
      · rw [if_neg hc2] at hr; simp at hr
    · rw [if_neg hc1] at hr
      by_cases hc3 : n > 20
      · rw [if_pos hc3] at hr; simp at hr
      · rw [if_neg hc3] at hr; simp at hr
  cases hcf : (if adv.max_capacity ≠ 0 then
      (if n > (adv.max_capacity : Int) then some (CBResp.overCapacity adv.max_capacity) else none)
      else if n > 20 then some CBResp.overDefaultLimit else none) with
  | some r => exact absurd hcf (fun hx => hcap r hx)
  | none =>
    have heq : create_booking u req choice now db =
        ({ db with bookings := db.bookings ++
            [{ id := freshId (db.bookings.map (fun x => x.id)), user_id := u.id, adventure_id := adv.id, payment_id := none, adventure_date := t, number_of_people := n, total_amount := adv.price * (n : Rat), special_requests := req.special_requests.getD "", status := "pending", booking_reference := generate_booking_reference choice, customer_name := req.customer_name.getD u.username, customer_email := req.customer_email.getD u.email, customer_phone := req.customer_phone.getD (u.phone_number.getD "") }] },
         CBResp.created { id := freshId (db.bookings.map (fun x => x.id)), user_id := u.id, adventure_id := adv.id, payment_id := none, adventure_date := t, number_of_people := n, total_amount := adv.price * (n : Rat), special_requests := req.special_requests.getD "", status := "pending", booking_reference := generate_booking_reference choice, customer_name := req.customer_name.getD u.username, customer_email := req.customer_email.getD u.email, customer_phone := req.customer_phone.getD (u.phone_number.getD "") }) := by
      rw [create_booking, if_neg hu, haid]
      simp [ha0, hcd, hfa, ht, hpi, hn, hcf]
    have hb : b = { id := freshId (db.bookings.map (fun x => x.id)), user_id := u.id, adventure_id := adv.id, payment_id := none, adventure_date := t, number_of_people := n, total_amount := adv.price * (n : Rat), special_requests := req.special_requests.getD "", status := "pending", booking_reference := generate_booking_reference choice, customer_name := req.customer_name.getD u.username, customer_email := req.customer_email.getD u.email, customer_phone := req.customer_phone.getD (u.phone_number.getD "") } := by
      rw [heq] at h
      simpa using h.symm
    refine ⟨aid, adv, t, n, hu, rfl, ha0, rfl, ht, hfa, rfl, hn, hb, ?_⟩
    rw [heq, hb]

/-- C7: after every successful create_booking, reading the booking back
through get_booking_by_id yields the identical booking_reference — the
fixed prefix BK- followed by 8 alphanumeric characters — the status
pending, and a total_amount equal to the matched adventure's price times
the validated party size computed at creation time. -/
theorem c7_roundtrip (u : User) (req : BookingReq) (choice : Fin 8 → Fin 36)
    (now : Int) (db : DB) (b : Booking)
    (h : (create_booking u req choice now db).2 = CBResp.created b) :
    refPattern b.booking_reference ∧
    b.status = "pending" ∧
    (∃ adv n, db.adventures.find? (fun a => a.id == req.adventure_id.getD 0 && a.is_active) = some adv ∧
      pyToInt (effectiveParticipants req) = some n ∧
      b.total_amount = adv.price * (n : Rat) ∧ b.number_of_people = n) ∧
    get_booking_by_id u b.id (create_booking u req choice now db).1 =
      some { booking_reference := b.booking_reference, total_amount := b.total_amount, status := b.status, participants := b.number_of_people } := by
  obtain ⟨aid, adv, t, n, hu, haid, ha0, hcd, ht, hfa, hpi, hn, hb, heq⟩ :=
    create_booking_success u req choice now db b h
  have hbid : b.id = freshId (db.bookings.map (fun x => x.id)) := by rw [hb]
  have hbuid : b.user_id = u.id := by rw [hb]
  refine ⟨?_, by rw [hb], ⟨adv, n, ?_, hpi, by rw [hb], by rw [hb]⟩, ?_⟩
  · rw [hb]; exact generate_ref_pattern choice
  · rw [haid]
    simpa using hfa
  · rw [heq]
    have hfind : (db.bookings ++ [b]).find? (fun x => x.id == b.id && x.user_id == u.id) = some b := by
      rw [find?_append_left_none]
      · simp [hbuid]
      · intro x hx
        have hmm : x.id ∈ db.bookings.map (fun y => y.id) := by
          simpa using List.mem_map_of_mem (fun y => y.id) hx
        have hlt := freshId_gt hmm
        rw [← hbid] at hlt
        have hne : (x.id == b.id) = false := by
          simp only [beq_eq_false_iff_ne, ne_eq]
          omega
        simp [hne]
    have hbadv : b.adventure_id = adv.id := by rw [hb]
    cases hfa2 : db.adventures.find? (fun a => a.id == b.adventure_id) with
    | none =>
      exfalso
      have hmem := List.mem_of_find?_eq_some hfa
      have hnone := List.find?_eq_none.mp hfa2 adv hmem
      apply hnone
      simp [hbadv]
    | some a2 =>
      simp [get_booking_by_id, hfind, hfa2]

/-- The user of the C7 witness. -/
def c7User : User :=
  { id := 1, username := "alice", email := "alice@example.com",
    phone_number := none, is_admin := false }

/-- The request of the C7 witness: 2 participants on a future date. -/
def c7Req : BookingReq :=
  { adventure_id := some 2, booking_date := some (.valid 1900000000),
    adventure_date := none, participants := some (.vInt 2),
    number_of_people := none, customer_name := none, customer_email := none,
    customer_phone := none, special_requests := none }

/-- The store of the C7 witness: one active adventure, nothing else. -/
def c7Db : DB :=
  { adventures := [{ id := 2, title := "Hike", price := 100, max_capacity := 5,
                     is_active := true, user_id := 9 }]
    bookings := []
    payments := [] }

/-- The reference draws of the C7 witness: always the first character. -/
def c7Choice : Fin 8 → Fin 36 := fun _ => 0

/-- The booking the C7 witness creates. -/
def c7Booking : Booking :=
  { id := 1, user_id := 1, adventure_id := 2, payment_id := none,
    adventure_date := 1900000000, number_of_people := 2,
    total_amount := 100 * ((2 : Int) : Rat),
    special_requests := "", status := "pending",
    booking_reference := "BK-AAAAAAAA", customer_name := "alice",
    customer_email := "alice@example.com", customer_phone := "" }

/-- Witness for C7: the concrete round trip. -/
theorem c7_roundtrip_witness :
    (create_booking c7User c7Req c7Choice 1700000000 c7Db).2 = CBResp.created c7Booking ∧
    get_booking_by_id c7User c7Booking.id (create_booking c7User c7Req c7Choice 1700000000 c7Db).1 =
      some { booking_reference := c7Booking.booking_reference, total_amount := c7Booking.total_amount, status := c7Booking.status, participants := c7Booking.number_of_people } :=
  ⟨by rfl, (c7_roundtrip c7User c7Req c7Choice 1700000000 c7Db c7Booking (by rfl)).2.2.2⟩

/-- C1 (amended): create_booking performs no per-date availability
check.  Once the active-adventure, date and party-size validations pass,
it rejects for capacity exactly when the party size exceeds
adventure.max_capacity (or exceeds the default limit of 20 when
max_capacity is NULL or 0), independently of the existing bookings and
reporting max_capacity rather than remaining availability; and
Adventure.calculate_available_slots — which create_booking never calls —
subtracts the number of confirmed booking rows for the date, not the sum
of their number_of_people, from max_capacity, so it is unchanged when
each booking's number_of_people is replaced arbitrarily. -/
theorem c1_capacity_check_amended (u : User) (req : BookingReq)
    (choice : Fin 8 → Fin 36) (now : Int) (db : DB)
    (aid : Nat) (adv : Adventure) (t : Int) (n : Int)
    (hu : u.username ≠ "") (haid : req.adventure_id = some aid) (ha0 : aid ≠ 0)
    (hcd : chooseDate req = some (DStr.valid t)) (ht : ¬ t < now)
    (hfa : db.adventures.find? (fun a => a.id == aid && a.is_active) = some adv)
    (hpi : pyToInt (effectiveParticipants req) = some n) (hn : ¬ n < 1) :
    ((create_booking u req choice now db).2 = CBResp.overCapacity adv.max_capacity ↔
      (adv.max_capacity ≠ 0 ∧ n > (adv.max_capacity : Int))) ∧
    ((create_booking u req choice now db).2 = CBResp.overDefaultLimit ↔
      (adv.max_capacity = 0 ∧ n > 20)) ∧
    (∀ f : Booking → Int, Adventure.calculate_available_slots adv t
        { db with bookings := db.bookings.map (fun b => { b with number_of_people := f b }) } =
      Adventure.calculate_available_slots adv t db) := by
  have hslots : ∀ f : Booking → Int, Adventure.calculate_available_slots adv t
      { db with bookings := db.bookings.map (fun b => { b with number_of_people := f b }) } =
      Adventure.calculate_available_slots adv t db := by
    intro f
    simp only [Adventure.calculate_available_slots, List.filter_map, List.length_map]
    have hpred : ∀ x ∈ db.bookings,
        ((fun b : Booking => b.adventure_id == adv.id && dateOf b.adventure_date == dateOf t && b.status == "confirmed") ∘ fun b : Booking => { b with number_of_people := f b }) x =
        (fun b : Booking => b.adventure_id == adv.id && dateOf b.adventure_date == dateOf t && b.status == "confirmed") x := fun x _ => rfl
    rw [List.filter_congr hpred]
  by_cases hc1 : adv.max_capacity ≠ 0
  · by_cases hc2 : n > (adv.max_capacity : Int)
    · have hres : (create_booking u req choice now db).2 = CBResp.overCapacity adv.max_capacity := by
        rw [create_booking, if_neg hu, haid]
        simp [ha0, hcd, hfa, ht, hpi, hn, hc1, hc2]
      refine ⟨by rw [hres]; exact iff_of_true rfl ⟨hc1, hc2⟩, ?_, hslots⟩
      rw [hres]
      exact iff_of_false (by simp) (fun h => hc1 h.1)
    · have hres : (create_booking u req choice now db).2.isCreated = true := by
        rw [create_booking, if_neg hu, haid]
        simp [ha0, hcd, hfa, ht, hpi, hn, hc1, hc2, CBResp.isCreated]
      refine ⟨?_, ?_, hslots⟩
      · refine iff_of_false (fun heq => ?_) (fun h => hc2 h.2)
        rw [heq] at hres
        simp [CBResp.isCreated] at hres
      · refine iff_of_false (fun heq => ?_) (fun h => hc1 h.1)
        rw [heq] at hres
        simp [CBResp.isCreated] at hres
  · by_cases hc3 : n > 20
    · have hres : (create_booking u req choice now db).2 = CBResp.overDefaultLimit := by
        rw [create_booking, if_neg hu, haid]
        simp [ha0, hcd, hfa, ht, hpi, hn, hc1, hc3]
      refine ⟨?_, by rw [hres]; exact iff_of_true rfl ⟨not_not.mp hc1, hc3⟩, hslots⟩
      rw [hres]
      exact iff_of_false (by simp) (fun h => hc1 h.1)
    · have hres : (create_booking u req choice now db).2.isCreated = true := by
        rw [create_booking, if_neg hu, haid]
        simp [ha0, hcd, hfa, ht, hpi, hn, hc1, hc3, CBResp.isCreated]
      refine ⟨?_, ?_, hslots⟩
      · refine iff_of_false (fun heq => ?_) (fun h => hc1 h.1)
        rw [heq] at hres
        simp [CBResp.isCreated] at hres
      · refine iff_of_false (fun heq => ?_) (fun h => hc3 h.2)
        rw [heq] at hres
        simp [CBResp.isCreated] at hres

/-- The user of the C1 evaluation. -/
def c1User : User :=
  { id := 1, username := "alice", email := "alice@example.com",
    phone_number := none, is_admin := false }

/-- The adventure of the C1 evaluation: capacity 5. -/
def c1Adv : Adventure :=
  { id := 2, title := "Hike", price := 100, max_capacity := 5,
    is_active := true, user_id := 9 }

/-- The store of the C1 evaluation: a confirmed 3-person booking already
exists for the same adventure and the same calendar date the request
asks for. -/
def c1Db : DB :=
  { adventures := [c1Adv]
    bookings :=
      [{ id := 11, user_id := 8, adventure_id := 2, payment_id := none,
         adventure_date := 1900000050, number_of_people := 3,
         total_amount := 300, special_requests := "", status := "confirmed",
         booking_reference := "BK-EEEEEEEE", customer_name := "bob",
         customer_email := "bob@example.com", customer_phone := "" }]
    payments := [] }

/-- The request of the C1 evaluation: 4 people on the booked date. -/
def c1Req : BookingReq :=
  { adventure_id := some 2, booking_date := some (.valid 1900000000),
    adventure_date := none, participants := some (.vInt 4),
    number_of_people := none, customer_name := none, customer_email := none,
    customer_phone := none, special_requests := none }

/-- The reference draws of the C1 evaluation. -/
def c1Choice : Fin 8 → Fin 36 := fun _ => 0

/-- Counterexample to C1 as stated: with capacity 5 and 3 confirmed
people already booked on the date, the spec-side availability is 2 and
the request asks for 4 > 2, so the claim demands CapacityExceeded — yet
the code accepts the booking (4 does not exceed max_capacity 5), because
create_booking never consults existing bookings. -/
theorem c1_claimed_availability_counterexample :
    specAvailable c1Adv 1900000000 c1Db = 2 ∧ (4 : Int) > 2 ∧
    (create_booking c1User c1Req c1Choice 1700000000 c1Db).2.isCreated = true ∧
    (create_booking c1User c1Req c1Choice 1700000000 c1Db).2.isCapacityErr = false := by
  refine ⟨by decide, by decide, rfl, rfl⟩

/-- Witness for C1 (amended): on the same concrete store the capacity
rejection happens exactly when the party size exceeds max_capacity. -/
theorem c1_capacity_check_amended_witness :
    pyToInt (effectiveParticipants c1Req) = some 4 ∧
    ((create_booking c1User c1Req c1Choice 1700000000 c1Db).2 =
        CBResp.overCapacity c1Adv.max_capacity ↔
      (c1Adv.max_capacity ≠ 0 ∧ (4 : Int) > (c1Adv.max_capacity : Int))) :=
  ⟨rfl, (c1_capacity_check_amended c1User c1Req c1Choice 1700000000 c1Db 2 c1Adv
    1900000000 4 (by decide) rfl (by decide) rfl (by decide) rfl rfl (by decide)).1⟩

/-- C9 (amended): create_booking fails with an InvalidInput response and
no inserted row whenever the chosen date string is absent, fails to
parse, or parses to a time strictly earlier than now (a time equal to
now is accepted), and whenever the effective party size — participants
if truthy, else number_of_people, else 1 — fails int() conversion or
converts, truncating fractions toward zero, to an integer below 1; a
falsy party_size such as 0 is replaced by the fallback instead of being
rejected. -/
theorem c9_validation_amended (u : User) (req : BookingReq)
    (choice : Fin 8 → Fin 36) (now : Int) (db : DB)
    (aid : Nat) (hu : u.username ≠ "")
    (haid : req.adventure_id = some aid) (ha0 : aid ≠ 0) :
    (chooseDate req = none →
      create_booking u req choice now db = (db, CBResp.missingDate)) ∧
    (∀ adv, db.adventures.find? (fun a => a.id == aid && a.is_active) = some adv →
      (chooseDate req = some DStr.invalid →
        create_booking u req choice now db = (db, CBResp.invalidDate)) ∧
      (∀ t, chooseDate req = some (DStr.valid t) → t < now →
        create_booking u req choice now db = (db, CBResp.pastDate)) ∧
      (∀ t, chooseDate req = some (DStr.valid t) → ¬ t < now →
        (pyToInt (effectiveParticipants req) = none →
          create_booking u req choice now db = (db, CBResp.invalidParticipants)) ∧
        (∀ n, pyToInt (effectiveParticipants req) = some n → n < 1 →
          create_booking u req choice now db = (db, CBResp.tooFewParticipants)))) := by
  refine ⟨?_, ?_⟩
  · intro hcd
    rw [create_booking, if_neg hu, haid]
    simp [ha0, hcd]
  · intro adv hfa
    refine ⟨?_, ?_, ?_⟩
    · intro hcd
      rw [create_booking, if_neg hu, haid]
      simp [ha0, hcd, hfa]
    · intro t hcd ht
      rw [create_booking, if_neg hu, haid]
      simp [ha0, hcd, hfa, ht]
    · intro t hcd ht
      refine ⟨?_, ?_⟩
      · intro hpi
        rw [create_booking, if_neg hu, haid]
        simp [ha0, hcd, hfa, ht, hpi]
      · intro n hpi hn
        rw [create_booking, if_neg hu, haid]
        simp [ha0, hcd, hfa, ht, hpi, hn]

/-- The user of the C9 evaluation. -/
def c9User : User :=
  { id := 1, username := "alice", email := "alice@example.com",
    phone_number := none, is_admin := false }

/-- The store of the C9 evaluation: one active adventure. -/
def c9Db : DB :=
  { adventures := [{ id := 2, title := "Hike", price := 100, max_capacity := 5,
                     is_active := true, user_id := 9 }]
    bookings := []
    payments := [] }

/-- The C9 counterexample request: party_size 0, a valid future date. -/
def c9Req : BookingReq :=
  { adventure_id := some 2, booking_date := some (.valid 1900000000),
    adventure_date := none, participants := some (.vInt 0),
    number_of_people := none, customer_name := none, customer_email := none,
    customer_phone := none, special_requests := none }

/-- The reference draws of the C9 evaluation. -/
def c9Choice : Fin 8 → Fin 36 := fun _ => 0

/-- Counterexample to C9 as stated: a request whose party_size is 0 — not
a positive integer — is not rejected with InvalidInput: the falsy value
falls back to the default of 1 and a booking row for one person is
inserted. -/
theorem c9_zero_party_counterexample :
    c9Req.participants = some (PyVal.vInt 0) ∧
    (create_booking c9User c9Req c9Choice 1700000000 c9Db).2.isCreated = true ∧
    (create_booking c9User c9Req c9Choice 1700000000 c9Db).1.bookings.length =
      c9Db.bookings.length + 1 := by
  refine ⟨rfl, rfl, rfl⟩

/-- The C9 witness request: an unparseable party size. -/
def c9WReq : BookingReq :=
  { adventure_id := some 2, booking_date := some (.valid 1900000000),
    adventure_date := none, participants := some (.vStr "abc"),
    number_of_people := none, customer_name := none, customer_email := none,
    customer_phone := none, special_requests := none }

/-- Witness for C9 (amended): a party size that int() cannot convert is
rejected with the invalid-participants response and the store is
unchanged. -/
theorem c9_validation_amended_witness :
    pyToInt (effectiveParticipants c9WReq) = none ∧
    create_booking c9User c9WReq c9Choice 1700000000 c9Db =
      (c9Db, CBResp.invalidParticipants) := by
  refine ⟨by decide, ?_⟩
  exact (((c9_validation_amended c9User c9WReq c9Choice 1700000000 c9Db 2
    (by decide) rfl (by decide)).2
      { id := 2, title := "Hike", price := 100, max_capacity := 5, is_active := true, user_id := 9 }
      rfl).2.2 1900000000 rfl (by decide)).1 (by decide)

end Adventures
